import Mathlib

/-!
Verification of the command-registry and detector-dispatch contract of the
Wake-AI-Red-Team repository.

The repository consists of 43 modules under `src/`, each a `workflow.py` that

* registers a zero-argument `factory` under a command name via the
  `workflow.command(name=...)` decorator of the external `wake_ai` package, and
* defines one detector class (subclass of `SimpleDetector`) whose only method,
  `get_detector_prompt`, returns a single markdown string literal (the "brief").

The brief strings are transcribed here at the structural granularity the
specification itself prescribes (its §3 models the prose as structured data):
each brief is embedded as its ordered list of top-level `##` section headings,
the vector count stated in its Task sentence, and its ordered severity bands,
each band carrying the vector count announced in its `###` heading (when one is
present) and the ordered list of its enumerated bold-titled attack vectors.
All of that data is transcribed verbatim from the source files.

The command registry itself (`workflow.command`, `resolve`, the error types)
lives in the external `wake_ai` package, which is not part of the repository;
those operations are modelled from the specification where needed.
-/

namespace WakeAI

/-- Severity levels of attack vectors, as used in the band headings of every
brief (critical / high / medium / low). -/
inductive Severity where
  | critical
  | high
  | medium
  | low
deriving DecidableEq, Repr

/-- Numeric rank of a severity: lower rank means more severe. -/
def Severity.rank : Severity → Nat
  | .critical => 0
  | .high => 1
  | .medium => 2
  | .low => 3

/-- One enumerated attack vector of a brief: its enumeration number and its
bold title, which serves as the vector's identifier. -/
structure AttackVector where
  num : Nat
  title : String
deriving DecidableEq, Repr

/-- One severity band of a brief: its severity, the vector count announced in
its heading (`### ... Severity (n vectors)`, `none` when the heading carries no
count), and its enumerated vectors in order of appearance. -/
structure Band where
  sev : Severity
  announced : Option Nat
  vectors : List AttackVector
deriving DecidableEq, Repr

/-- Structural skeleton of one brief string: its top-level `##` section
headings in order, the total vector count stated in its Task sentence, and its
severity bands in order of appearance. -/
structure BriefDoc where
  sections : List String
  taskCount : Nat
  bands : List Band
deriving DecidableEq, Repr

/-- A detector object: it carries nothing but its brief (the detector classes
in `src/` have no constructor, no instance state and a single method returning
a string literal). -/
structure Detector where
  prompt : BriefDoc
deriving DecidableEq, Repr

/-- Embeds the `get_detector_prompt` method: every implementation in `src/` is
a single `return` of a string literal, so the method simply yields the
detector's brief. -/
def Detector.get_detector_prompt (d : Detector) : BriefDoc :=
  d.prompt

/-- The specification's name (`produce_brief`) for the one capability a
detector exposes; in the source it is the `get_detector_prompt` method. -/
def produce_brief (d : Detector) : BriefDoc :=
  d.get_detector_prompt

/-- A detector factory: a zero-argument constructor returning a detector. -/
def Factory : Type :=
  Unit → Detector

/-- The flattened vector catalog of a detector: its brief's bands' vectors in
order of appearance. -/
def Detector.catalog (d : Detector) : List AttackVector :=
  (d.prompt.bands.map Band.vectors).flatten

namespace AccessControl
/-- Structural skeleton of the string literal returned by `AccessControlDetector.get_detector_prompt` in `src/access_control/workflow.py`: its top-level `##` section headings in order, the vector count stated in the Task sentence, and the severity-band listing under Target Attack Vectors (each band with the count announced in its `###` heading, if any, and its enumerated bold-titled vectors in order). -/
def prompt : BriefDoc :=
  { sections := ["Task", "Target Attack Vectors", "Analysis Process", "Documentation Requirements", "Validation Criteria", "Code Pattern Analysis"],
    taskCount := 17,
    bands := [
      { sev := .critical, announced := some 11,
        vectors := [
          ⟨1, "Role Escalation Attack"⟩,
          ⟨2, "Role Check Bypass Attack"⟩,
          ⟨3, "Multi-Signature Bypass Attack"⟩,
          ⟨4, "Admin Takeover Scheduling Attack"⟩,
          ⟨5, "Backdoor Role Escalation Attack"⟩,
          ⟨6, "Timelock Bypass Attack"⟩,
          ⟨7, "Time-Based Admin Takeover Attack"⟩,
          ⟨8, "Access Control Bypass via Delegate Call"⟩,
          ⟨9, "Impersonation Attack"⟩,
          ⟨10, "Backdoor Access Attack"⟩] },
      { sev := .high, announced := some 6,
        vectors := [
          ⟨11, "Role Renounce Attack"⟩,
          ⟨12, "Role Hierarchy Attack"⟩,
          ⟨13, "Front-Run Role Change Attack"⟩,
          ⟨14, "Role Rotation Attack"⟩,
          ⟨15, "Access Control Bypass via Low-Level Call"⟩,
          ⟨16, "tx.origin vs msg.sender Attack"⟩,
          ⟨17, "Signature-Based Bypass Attack"⟩] }] }

/-- Embeds `class AccessControlDetector(SimpleDetector)` from `src/access_control/workflow.py`. -/
def AccessControlDetector : Detector := ⟨prompt⟩

/-- Embeds the zero-argument `factory` that `src/access_control/workflow.py` registers under the command name `access-control`; it returns `AccessControlDetector()`. -/
def factory : Factory := fun _ => AccessControlDetector

end AccessControl

namespace AdvancedBlockBuildingAttacks
/-- Structural skeleton of the string literal returned by `AdvancedBlockBuildingAttacksDetector.get_detector_prompt` in `src/advanced_block_building_attacks/workflow.py`: its top-level `##` section headings in order, the vector count stated in the Task sentence, and the severity-band listing under Target Attack Vectors (each band with the count announced in its `###` heading, if any, and its enumerated bold-titled vectors in order). -/
def prompt : BriefDoc :=
  { sections := ["Task", "Target Attack Vectors", "Analysis Process", "Documentation Requirements", "Validation Criteria", "Critical Security Patterns"],
    taskCount := 6,
    bands := [
      { sev := .critical, announced := some 4,
        vectors := [
          ⟨1, "Builder-Relayer Collusion Attack"⟩,
          ⟨2, "Multi-Block MEV Strategy"⟩,
          ⟨3, "Block Stuffing for MEV Extraction"⟩,
          ⟨4, "Validator MEV Kickback Scheme"⟩] },
      { sev := .high, announced := some 2,
        vectors := [
          ⟨5, "PBS (Proposer-Builder Separation) Exploitation"⟩,
          ⟨6, "Cross-Block MEV Coordination"⟩] }] }

/-- Embeds `class AdvancedBlockBuildingAttacksDetector(SimpleDetector)` from `src/advanced_block_building_attacks/workflow.py`. -/
def AdvancedBlockBuildingAttacksDetector : Detector := ⟨prompt⟩

/-- Embeds the zero-argument `factory` that `src/advanced_block_building_attacks/workflow.py` registers under the command name `advanced-block-building-attacks`; it returns `AdvancedBlockBuildingAttacksDetector()`. -/
def factory : Factory := fun _ => AdvancedBlockBuildingAttacksDetector

end AdvancedBlockBuildingAttacks

namespace AdvancedCompoundAttacks
/-- Structural skeleton of the string literal returned by `AdvancedCompoundAttacksDetector.get_detector_prompt` in `src/advanced_compound_attacks/workflow.py`: its top-level `##` section headings in order, the vector count stated in the Task sentence, and the severity-band listing under Target Attack Vectors (each band with the count announced in its `###` heading, if any, and its enumerated bold-titled vectors in order). -/
def prompt : BriefDoc :=
  { sections := ["Task", "Target Attack Vectors (All Critical Severity)", "Analysis Process", "Documentation Requirements", "Validation Criteria", "Special Focus Areas"],
    taskCount := 9,
    bands := [
      { sev := .critical, announced := some 9,
        vectors := [
          ⟨1, "Multi-Vector Simultaneous Attack"⟩,
          ⟨2, "Cascading Failure Attack"⟩,
          ⟨3, "System-Wide Corruption Attack"⟩,
          ⟨4, "Emergency Drain Attack"⟩,
          ⟨5, "Governance Emergency Attack"⟩,
          ⟨6, "Randomized Attack Pattern"⟩,
          ⟨7, "Phased Attack Execution"⟩,
          ⟨8, "Targeted Attack Sequences"⟩,
          ⟨9, "Complete Attack Suite Execution"⟩] }] }

/-- Embeds `class AdvancedCompoundAttacksDetector(SimpleDetector)` from `src/advanced_compound_attacks/workflow.py`. -/
def AdvancedCompoundAttacksDetector : Detector := ⟨prompt⟩

/-- Embeds the zero-argument `factory` that `src/advanced_compound_attacks/workflow.py` registers under the command name `advanced-compound-attacks`; it returns `AdvancedCompoundAttacksDetector()`. -/
def factory : Factory := fun _ => AdvancedCompoundAttacksDetector

end AdvancedCompoundAttacks

namespace AIAssistedAttacks
/-- Structural skeleton of the string literal returned by `AIAssistedAttacksDetector.get_detector_prompt` in `src/ai_assisted_attacks/workflow.py`: its top-level `##` section headings in order, the vector count stated in the Task sentence, and the severity-band listing under Target Attack Vectors (each band with the count announced in its `###` heading, if any, and its enumerated bold-titled vectors in order). -/
def prompt : BriefDoc :=
  { sections := ["Task", "Target Attack Vectors", "Analysis Process", "Documentation Requirements", "Validation Criteria", "Special Focus Areas"],
    taskCount := 8,
    bands := [
      { sev := .critical, announced := some 3,
        vectors := [
          ⟨1, "AI Coordination Between Multiple Bot Networks"⟩,
          ⟨2, "Automated Multi-Vector Attack Coordination"⟩,
          ⟨3, "AI-Driven Cross-Protocol Strategy Coordination"⟩] },
      { sev := .high, announced := some 3,
        vectors := [
          ⟨4, "AI-Powered MEV Optimization Attack"⟩,
          ⟨5, "Machine Learning Arbitrage Prediction Attack"⟩,
          ⟨6, "Neural Network Oracle Prediction Manipulation"⟩] },
      { sev := .medium, announced := some 2,
        vectors := [
          ⟨7, "AI-Enhanced Multi-Pool Route Optimization"⟩,
          ⟨8, "Machine Learning Gas Market Manipulation"⟩] }] }

/-- Embeds `class AIAssistedAttacksDetector(SimpleDetector)` from `src/ai_assisted_attacks/workflow.py`. -/
def AIAssistedAttacksDetector : Detector := ⟨prompt⟩

/-- Embeds the zero-argument `factory` that `src/ai_assisted_attacks/workflow.py` registers under the command name `ai-assisted-attacks`; it returns `AIAssistedAttacksDetector()`. -/
def factory : Factory := fun _ => AIAssistedAttacksDetector

end AIAssistedAttacks

namespace ArithmeticAttacks
/-- Structural skeleton of the string literal returned by `ArithmeticAttacksDetector.get_detector_prompt` in `src/arithmetic_attacks/workflow.py`: its top-level `##` section headings in order, the vector count stated in the Task sentence, and the severity-band listing under Target Attack Vectors (each band with the count announced in its `###` heading, if any, and its enumerated bold-titled vectors in order). -/
def prompt : BriefDoc :=
  { sections := ["Task", "Target Attack Vectors", "Analysis Process", "Documentation Requirements", "Validation Criteria", "Special Analysis Targets"],
    taskCount := 9,
    bands := [
      { sev := .critical, announced := some 5,
        vectors := [
          ⟨1, "Integer Overflow Attack"⟩,
          ⟨2, "Integer Underflow Attack"⟩,
          ⟨3, "Multiplication Overflow Attack"⟩,
          ⟨4, "Enhanced Overflow Attack"⟩,
          ⟨5, "Share Price Calculation Manipulation"⟩] },
      { sev := .high, announced := some 3,
        vectors := [
          ⟨6, "Division by Zero Attack"⟩,
          ⟨7, "Precision Loss Attack"⟩,
          ⟨8, "Enhanced Arithmetic Attack"⟩] },
      { sev := .medium, announced := some 1,
        vectors := [
          ⟨9, "Modulo Bias Attack"⟩] }] }

/-- Embeds `class ArithmeticAttacksDetector(SimpleDetector)` from `src/arithmetic_attacks/workflow.py`. -/
def ArithmeticAttacksDetector : Detector := ⟨prompt⟩

/-- Embeds the zero-argument `factory` that `src/arithmetic_attacks/workflow.py` registers under the command name `arithmetic-attacks`; it returns `ArithmeticAttacksDetector()`. -/
def factory : Factory := fun _ => ArithmeticAttacksDetector

end ArithmeticAttacks

namespace AssetLockBridgeAttacks
/-- Structural skeleton of the string literal returned by `AssetLockBridgeAttacksDetector.get_detector_prompt` in `src/asset_lock_bridge_attacks/workflow.py`: its top-level `##` section headings in order, the vector count stated in the Task sentence, and the severity-band listing under Target Attack Vectors (each band with the count announced in its `###` heading, if any, and its enumerated bold-titled vectors in order). -/
def prompt : BriefDoc :=
  { sections := ["Task", "Target Attack Vectors (All Critical Severity)", "Analysis Process", "Documentation Requirements", "Validation Criteria", "Special Focus Areas"],
    taskCount := 4,
    bands := [
      { sev := .critical, announced := some 4,
        vectors := [
          ⟨1, "Asset Lock Exploit"⟩,
          ⟨2, "Enhanced Asset Lock Exploit"⟩,
          ⟨3, "Bridge Exploit"⟩,
          ⟨4, "Enhanced Bridge Exploit"⟩] }] }

/-- Embeds `class AssetLockBridgeAttacksDetector(SimpleDetector)` from `src/asset_lock_bridge_attacks/workflow.py`. -/
def AssetLockBridgeAttacksDetector : Detector := ⟨prompt⟩

/-- Embeds the zero-argument `factory` that `src/asset_lock_bridge_attacks/workflow.py` registers under the command name `asset-lock-bridge-attacks`; it returns `AssetLockBridgeAttacksDetector()`. -/
def factory : Factory := fun _ => AssetLockBridgeAttacksDetector

end AssetLockBridgeAttacks

namespace ConstructorInitializationAttacks
/-- Structural skeleton of the string literal returned by `ConstructorInitializationAttacksDetector.get_detector_prompt` in `src/constructor_initialization_attacks/workflow.py`: its top-level `##` section headings in order, the vector count stated in the Task sentence, and the severity-band listing under Target Attack Vectors (each band with the count announced in its `###` heading, if any, and its enumerated bold-titled vectors in order). -/
def prompt : BriefDoc :=
  { sections := ["Task", "Target Attack Vectors (All High Severity)", "Analysis Process", "Documentation Requirements", "Validation Criteria", "Special Focus Areas"],
    taskCount := 2,
    bands := [
      { sev := .high, announced := some 2,
        vectors := [
          ⟨1, "Constructor Initialization Attack"⟩,
          ⟨2, "Enhanced Initialization Attack"⟩] }] }

/-- Embeds `class ConstructorInitializationAttacksDetector(SimpleDetector)` from `src/constructor_initialization_attacks/workflow.py`. -/
def ConstructorInitializationAttacksDetector : Detector := ⟨prompt⟩

/-- Embeds the zero-argument `factory` that `src/constructor_initialization_attacks/workflow.py` registers under the command name `constructor-initialization-attacks`; it returns `ConstructorInitializationAttacksDetector()`. -/
def factory : Factory := fun _ => ConstructorInitializationAttacksDetector

end ConstructorInitializationAttacks

namespace CoreAttackMechanisms
/-- Structural skeleton of the string literal returned by `CoreAttackMechanismsDetector.get_detector_prompt` in `src/core_attacks/workflow.py`: its top-level `##` section headings in order, the vector count stated in the Task sentence, and the severity-band listing under Target Attack Vectors (each band with the count announced in its `###` heading, if any, and its enumerated bold-titled vectors in order). -/
def prompt : BriefDoc :=
  { sections := ["Task", "Target Attack Vectors", "Analysis Process", "Documentation Requirements", "Validation Criteria", "Special Focus Areas"],
    taskCount := 22,
    bands := [
      { sev := .critical, announced := some 15,
        vectors := [
          ⟨1, "Advanced Flash Loan Actions"⟩,
          ⟨2, "MEV Attack Preparation"⟩,
          ⟨3, "Cross-Chain Balance Manipulation"⟩,
          ⟨4, "L2 Bridge State Manipulation"⟩,
          ⟨5, "Cross-Chain Message Processing"⟩,
          ⟨6, "Share Price Manipulation"⟩,
          ⟨7, "Share-to-Asset Conversion Manipulation"⟩,
          ⟨8, "Admin Takeover Scheduling"⟩,
          ⟨9, "Configuration Backdoor Updates"⟩,
          ⟨10, "Fake Merkle Root Setting"⟩,
          ⟨11, "Merkle Proof Verification Bypass"⟩,
          ⟨12, "Uniswap V4 Hook Manipulation"⟩] },
      { sev := .high, announced := some 8,
        vectors := [
          ⟨13, "Signature Verification Manipulation"⟩,
          ⟨14, "Signer Address Manipulation"⟩,
          ⟨15, "Reward Processing Manipulation"⟩,
          ⟨16, "Wallet Migration Manipulation"⟩,
          ⟨17, "Account Abstraction Targeting"⟩,
          ⟨18, "Account Execution Manipulation"⟩,
          ⟨19, "Honeypot Activation Threshold Manipulation"⟩,
          ⟨20, "Cryptographic Operation Manipulation"⟩] },
      { sev := .medium, announced := some 2,
        vectors := [
          ⟨21, "Event Emission Manipulation"⟩,
          ⟨22, "Gas Usage Optimization Exploitation"⟩] }] }

/-- Embeds `class CoreAttackMechanismsDetector(SimpleDetector)` from `src/core_attacks/workflow.py`. -/
def CoreAttackMechanismsDetector : Detector := ⟨prompt⟩

/-- Embeds the zero-argument `factory` that `src/core_attacks/workflow.py` registers under the command name `core-attacks`; it returns `CoreAttackMechanismsDetector()`. -/
def factory : Factory := fun _ => CoreAttackMechanismsDetector

end CoreAttackMechanisms

namespace CrossChainAttacks
/-- Structural skeleton of the string literal returned by `CrossChainAttacksDetector.get_detector_prompt` in `src/cross_chain_attacks/workflow.py`: its top-level `##` section headings in order, the vector count stated in the Task sentence, and the severity-band listing under Target Attack Vectors (each band with the count announced in its `###` heading, if any, and its enumerated bold-titled vectors in order). -/
def prompt : BriefDoc :=
  { sections := ["Task", "Target Attack Vectors", "Analysis Process", "Documentation Requirements", "Validation Criteria", "Critical Security Patterns"],
    taskCount := 17,
    bands := [
      { sev := .critical, announced := some 16,
        vectors := [
          ⟨1, "Cross-Chain Message Replay Attack"⟩,
          ⟨2, "Bridge Double-Spending Attack"⟩,
          ⟨3, "Finality Attack"⟩,
          ⟨4, "Cross-Chain State Desynchronization"⟩,
          ⟨5, "L2 Withdrawal Blocking"⟩,
          ⟨6, "Cross-Chain Message Manipulation"⟩,
          ⟨7, "Bridge State Manipulation"⟩,
          ⟨8, "Cross-Chain Reentrancy Attack"⟩,
          ⟨9, "Validator Compromise Attack"⟩,
          ⟨10, "Mint/Burn Imbalance Attack"⟩,
          ⟨11, "Cross-Chain MEV Attack"⟩,
          ⟨12, "Wormhole Bridge Attack"⟩,
          ⟨13, "Multichain Bridge Attack"⟩,
          ⟨14, "Hop Protocol Attack"⟩,
          ⟨15, "Synapse Protocol Attack"⟩,
          ⟨16, "Across Bridge Attack"⟩] },
      { sev := .high, announced := some 1,
        vectors := [
          ⟨17, "Chain ID Confusion Attack"⟩] }] }

/-- Embeds `class CrossChainAttacksDetector(SimpleDetector)` from `src/cross_chain_attacks/workflow.py`. -/
def CrossChainAttacksDetector : Detector := ⟨prompt⟩

/-- Embeds the zero-argument `factory` that `src/cross_chain_attacks/workflow.py` registers under the command name `cross-chain-attacks`; it returns `CrossChainAttacksDetector()`. -/
def factory : Factory := fun _ => CrossChainAttacksDetector

end CrossChainAttacks

namespace DeFiProtocolAttacks
/-- Structural skeleton of the string literal returned by `DeFiProtocolAttacksDetector.get_detector_prompt` in `src/defi_protocol_attacks/workflow.py`: its top-level `##` section headings in order, the vector count stated in the Task sentence, and the severity-band listing under Target Attack Vectors (each band with the count announced in its `###` heading, if any, and its enumerated bold-titled vectors in order). -/
def prompt : BriefDoc :=
  { sections := ["Task", "Target Attack Vectors", "Analysis Process", "Documentation Requirements", "Validation Criteria", "Critical Security Patterns"],
    taskCount := 8,
    bands := [
      { sev := .critical, announced := some 5,
        vectors := [
          ⟨1, "Compound Borrow Attack"⟩,
          ⟨2, "Yearn Vault Attack"⟩,
          ⟨3, "Synthetix Debt Pool Attack"⟩,
          ⟨4, "MakerDAO CDP Attack"⟩,
          ⟨5, "Liquity Trove Attack"⟩] },
      { sev := .high, announced := some 3,
        vectors := [
          ⟨6, "Convex Reward Attack"⟩,
          ⟨7, "Reflexer SAFE Attack"⟩,
          ⟨8, "Alpaca Finance Attack"⟩] }] }

/-- Embeds `class DeFiProtocolAttacksDetector(SimpleDetector)` from `src/defi_protocol_attacks/workflow.py`. -/
def DeFiProtocolAttacksDetector : Detector := ⟨prompt⟩

/-- Embeds the zero-argument `factory` that `src/defi_protocol_attacks/workflow.py` registers under the command name `defi-protocol-attacks`; it returns `DeFiProtocolAttacksDetector()`. -/
def factory : Factory := fun _ => DeFiProtocolAttacksDetector

end DeFiProtocolAttacks

namespace DistractionStealthAttacks
/-- Structural skeleton of the string literal returned by `DistractionStealthAttacksDetector.get_detector_prompt` in `src/distraction_stealth_attacks/workflow.py`: its top-level `##` section headings in order, the vector count stated in the Task sentence, and the severity-band listing under Target Attack Vectors (each band with the count announced in its `###` heading, if any, and its enumerated bold-titled vectors in order). -/
def prompt : BriefDoc :=
  { sections := ["Task", "Target Attack Vectors", "Analysis Process", "Documentation Requirements", "Validation Criteria", "Special Focus Areas"],
    taskCount := 3,
    bands := [
      { sev := .high, announced := some 2,
        vectors := [
          ⟨2, "Complex Distraction Attack"⟩,
          ⟨3, "Enhanced Distraction Attack"⟩] },
      { sev := .medium, announced := some 1,
        vectors := [
          ⟨1, "Distraction Attack"⟩] }] }

/-- Embeds `class DistractionStealthAttacksDetector(SimpleDetector)` from `src/distraction_stealth_attacks/workflow.py`. -/
def DistractionStealthAttacksDetector : Detector := ⟨prompt⟩

/-- Embeds the zero-argument `factory` that `src/distraction_stealth_attacks/workflow.py` registers under the command name `distraction-stealth-attacks`; it returns `DistractionStealthAttacksDetector()`. -/
def factory : Factory := fun _ => DistractionStealthAttacksDetector

end DistractionStealthAttacks

namespace EmergencyOrchestrationAttacks
/-- Structural skeleton of the string literal returned by `EmergencyOrchestrationAttacksDetector.get_detector_prompt` in `src/emergency_orchestration_attacks/workflow.py`: its top-level `##` section headings in order, the vector count stated in the Task sentence, and the severity-band listing under Target Attack Vectors (each band with the count announced in its `###` heading, if any, and its enumerated bold-titled vectors in order). -/
def prompt : BriefDoc :=
  { sections := ["Task", "Target Attack Vectors (All Critical Severity)", "Analysis Process", "Documentation Requirements", "Validation Criteria", "Special Focus Areas"],
    taskCount := 4,
    bands := [
      { sev := .critical, announced := some 4,
        vectors := [
          ⟨1, "Ultimate Attack Orchestration"⟩,
          ⟨2, "Complete Attack Suite"⟩,
          ⟨3, "Emergency Vector Execution"⟩,
          ⟨4, "Comprehensive Attack Framework"⟩] }] }

/-- Embeds `class EmergencyOrchestrationAttacksDetector(SimpleDetector)` from `src/emergency_orchestration_attacks/workflow.py`. -/
def EmergencyOrchestrationAttacksDetector : Detector := ⟨prompt⟩

/-- Embeds the zero-argument `factory` that `src/emergency_orchestration_attacks/workflow.py` registers under the command name `emergency-orchestration-attacks`; it returns `EmergencyOrchestrationAttacksDetector()`. -/
def factory : Factory := fun _ => EmergencyOrchestrationAttacksDetector

end EmergencyOrchestrationAttacks

namespace EventHistoryManipulationAttacks
/-- Structural skeleton of the string literal returned by `EventHistoryManipulationAttacksDetector.get_detector_prompt` in `src/event_history_manipulation_attacks/workflow.py`: its top-level `##` section headings in order, the vector count stated in the Task sentence, and the severity-band listing under Target Attack Vectors (each band with the count announced in its `###` heading, if any, and its enumerated bold-titled vectors in order). -/
def prompt : BriefDoc :=
  { sections := ["Task", "Target Attack Vectors", "Analysis Process", "Documentation Requirements", "Validation Criteria", "Special Focus Areas"],
    taskCount := 4,
    bands := [
      { sev := .high, announced := some 3,
        vectors := [
          ⟨1, "Fake Transaction History Creation"⟩,
          ⟨2, "Advanced Event Manipulation"⟩,
          ⟨3, "Enhanced Event Manipulation Attack"⟩] },
      { sev := .medium, announced := some 1,
        vectors := [
          ⟨4, "Event Emission Attack"⟩] }] }

/-- Embeds `class EventHistoryManipulationAttacksDetector(SimpleDetector)` from `src/event_history_manipulation_attacks/workflow.py`. -/
def EventHistoryManipulationAttacksDetector : Detector := ⟨prompt⟩

/-- Embeds the zero-argument `factory` that `src/event_history_manipulation_attacks/workflow.py` registers under the command name `event-history-manipulation-attacks`; it returns `EventHistoryManipulationAttacksDetector()`. -/
def factory : Factory := fun _ => EventHistoryManipulationAttacksDetector

end EventHistoryManipulationAttacks

namespace FlashLoanMEVAttacks
/-- Structural skeleton of the string literal returned by `FlashLoanMEVAttacksDetector.get_detector_prompt` in `src/flashloan_mev_attacks/workflow.py`: its top-level `##` section headings in order, the vector count stated in the Task sentence, and the severity-band listing under Target Attack Vectors (each band with the count announced in its `###` heading, if any, and its enumerated bold-titled vectors in order). -/
def prompt : BriefDoc :=
  { sections := ["Task", "Target Attack Vectors", "Analysis Process", "Documentation Requirements", "Validation Criteria", "Critical Security Patterns"],
    taskCount := 19,
    bands := [
      { sev := .critical, announced := some 11,
        vectors := [
          ⟨1, "Flash Loan Price Manipulation"⟩,
          ⟨2, "Governance Token Flash Loan Attack"⟩,
          ⟨3, "Advanced Flash Loan Attack"⟩,
          ⟨4, "Multi-Step Flash Loan Governance Attack"⟩,
          ⟨5, "Flash Loan Oracle Manipulation"⟩,
          ⟨6, "Recursive Flash Loan Attack"⟩,
          ⟨7, "Flash Loan Reentrancy Attack"⟩,
          ⟨8, "Aave Flash Loan Attack"⟩,
          ⟨9, "MEV Arbitrage Attack"⟩,
          ⟨10, "Price Manipulation Swap"⟩,
          ⟨11, "Protocol-Specific Uniswap V4 Attack"⟩] },
      { sev := .high, announced := some 8,
        vectors := [
          ⟨12, "Malicious Token Swap"⟩,
          ⟨13, "Slippage Front-Running Attack"⟩,
          ⟨14, "Swap Path Manipulation Attack"⟩,
          ⟨15, "AI-Evading Sandwich Attack"⟩,
          ⟨16, "Sandwich Detection Attack"⟩,
          ⟨17, "Front-Running Bot Attack"⟩,
          ⟨18, "Arbitrage Bot Exploit"⟩,
          ⟨19, "AI-Evading Enhanced Sandwich"⟩] }] }

/-- Embeds `class FlashLoanMEVAttacksDetector(SimpleDetector)` from `src/flashloan_mev_attacks/workflow.py`. -/
def FlashLoanMEVAttacksDetector : Detector := ⟨prompt⟩

/-- Embeds the zero-argument `factory` that `src/flashloan_mev_attacks/workflow.py` registers under the command name `flashloan-mev-attacks`; it returns `FlashLoanMEVAttacksDetector()`. -/
def factory : Factory := fun _ => FlashLoanMEVAttacksDetector

end FlashLoanMEVAttacks

namespace GasAttacks
/-- Structural skeleton of the string literal returned by `GasAttacksDetector.get_detector_prompt` in `src/gas_attacks/workflow.py`: its top-level `##` section headings in order, the vector count stated in the Task sentence, and the severity-band listing under Target Attack Vectors (each band with the count announced in its `###` heading, if any, and its enumerated bold-titled vectors in order). -/
def prompt : BriefDoc :=
  { sections := ["Task", "Target Attack Vectors", "Analysis Process", "Documentation Requirements", "Validation Criteria", "Remediation Patterns"],
    taskCount := 5,
    bands := [
      { sev := .high, announced := some 4,
        vectors := [
          ⟨1, "Gas Limit Attack"⟩,
          ⟨2, "Enhanced Gas Griefing Attack"⟩,
          ⟨3, "Gas Limit Manipulation"⟩,
          ⟨4, "Stealth Gas Attack"⟩] },
      { sev := .medium, announced := some 1,
        vectors := [
          ⟨5, "Gas Griefing Attack"⟩] }] }

/-- Embeds `class GasAttacksDetector(SimpleDetector)` from `src/gas_attacks/workflow.py`. -/
def GasAttacksDetector : Detector := ⟨prompt⟩

/-- Embeds the zero-argument `factory` that `src/gas_attacks/workflow.py` registers under the command name `gas-attacks`; it returns `GasAttacksDetector()`. -/
def factory : Factory := fun _ => GasAttacksDetector

end GasAttacks

namespace Governance
/-- Structural skeleton of the string literal returned by `GovernanceDetector.get_detector_prompt` in `src/governance/workflow.py`: its top-level `##` section headings in order, the vector count stated in the Task sentence, and the severity-band listing under Target Attack Vectors (each band with the count announced in its `###` heading, if any, and its enumerated bold-titled vectors in order). -/
def prompt : BriefDoc :=
  { sections := ["Task", "Target Attack Vectors", "Analysis Process", "Documentation Requirements", "Validation Criteria"],
    taskCount := 8,
    bands := [
      { sev := .critical, announced := none,
        vectors := [
          ⟨1, "Governance Function Attack"⟩,
          ⟨2, "Timelock Bypass"⟩,
          ⟨3, "Enhanced Governance Attack with Flash Loans"⟩,
          ⟨4, "Compound Governance Attack"⟩,
          ⟨5, "Aragon Voting Attack"⟩,
          ⟨6, "DAOstack Proposal Attack"⟩] },
      { sev := .high, announced := none,
        vectors := [
          ⟨7, "Moloch Ragequit Attack"⟩,
          ⟨8, "Snapshot Off-Chain Attack"⟩] }] }

/-- Embeds `class GovernanceDetector(SimpleDetector)` from `src/governance/workflow.py`. -/
def GovernanceDetector : Detector := ⟨prompt⟩

/-- Embeds the zero-argument `factory` that `src/governance/workflow.py` registers under the command name `governance`; it returns `GovernanceDetector()`. -/
def factory : Factory := fun _ => GovernanceDetector

end Governance

namespace HoneypotMechanismAttacks
/-- Structural skeleton of the string literal returned by `HoneypotMechanismAttacksDetector.get_detector_prompt` in `src/honeypot_mechanism_attacks/workflow.py`: its top-level `##` section headings in order, the vector count stated in the Task sentence, and the severity-band listing under Target Attack Vectors (each band with the count announced in its `###` heading, if any, and its enumerated bold-titled vectors in order). -/
def prompt : BriefDoc :=
  { sections := ["Task", "Target Attack Vectors (All High Severity)", "Analysis Process", "Documentation Requirements", "Validation Criteria", "Special Focus Areas"],
    taskCount := 5,
    bands := [
      { sev := .high, announced := some 5,
        vectors := [
          ⟨1, "Honeypot Activation Trigger"⟩,
          ⟨2, "Sell Blocking Attack"⟩,
          ⟨3, "Liquidity Trap Attack"⟩,
          ⟨4, "Progressive Tax Attack"⟩,
          ⟨5, "Exit Prevention Attack"⟩] }] }

/-- Embeds `class HoneypotMechanismAttacksDetector(SimpleDetector)` from `src/honeypot_mechanism_attacks/workflow.py`. -/
def HoneypotMechanismAttacksDetector : Detector := ⟨prompt⟩

/-- Embeds the zero-argument `factory` that `src/honeypot_mechanism_attacks/workflow.py` registers under the command name `honeypot-mechanism-attacks`; it returns `HoneypotMechanismAttacksDetector()`. -/
def factory : Factory := fun _ => HoneypotMechanismAttacksDetector

end HoneypotMechanismAttacks

namespace IdentityNamingAttacks
/-- Structural skeleton of the string literal returned by `IdentityNamingAttacksDetector.get_detector_prompt` in `src/identity_naming_attacks/workflow.py`: its top-level `##` section headings in order, the vector count stated in the Task sentence, and the severity-band listing under Target Attack Vectors (each band with the count announced in its `###` heading, if any, and its enumerated bold-titled vectors in order). -/
def prompt : BriefDoc :=
  { sections := ["Task", "Target Attack Vectors", "Analysis Process", "Documentation Requirements", "Validation Criteria", "Special Focus Areas"],
    taskCount := 5,
    bands := [
      { sev := .high, announced := some 2,
        vectors := [
          ⟨1, "ENS Attack"⟩,
          ⟨2, "Unstoppable Domains Attack"⟩] },
      { sev := .medium, announced := some 3,
        vectors := [
          ⟨3, "BrightID Attack"⟩,
          ⟨4, "Civic Identity Attack"⟩,
          ⟨5, "Proof of Humanity Attack"⟩] }] }

/-- Embeds `class IdentityNamingAttacksDetector(SimpleDetector)` from `src/identity_naming_attacks/workflow.py`. -/
def IdentityNamingAttacksDetector : Detector := ⟨prompt⟩

/-- Embeds the zero-argument `factory` that `src/identity_naming_attacks/workflow.py` registers under the command name `identity-naming-attacks`; it returns `IdentityNamingAttacksDetector()`. -/
def factory : Factory := fun _ => IdentityNamingAttacksDetector

end IdentityNamingAttacks

namespace ImplementationProxyAttacks
/-- Structural skeleton of the string literal returned by `ImplementationProxyAttacksDetector.get_detector_prompt` in `src/implementation_proxy_attacks/workflow.py`: its top-level `##` section headings in order, the vector count stated in the Task sentence, and the severity-band listing under Target Attack Vectors (each band with the count announced in its `###` heading, if any, and its enumerated bold-titled vectors in order). -/
def prompt : BriefDoc :=
  { sections := ["Task", "Target Attack Vectors (All Critical Severity)", "Analysis Process", "Documentation Requirements", "Validation Criteria", "Special Focus Areas"],
    taskCount := 5,
    bands := [
      { sev := .critical, announced := some 5,
        vectors := [
          ⟨1, "Malicious Implementation Attack"⟩,
          ⟨2, "Enhanced Implementation Attack"⟩,
          ⟨3, "Proxy Upgrade Attack"⟩,
          ⟨4, "Enhanced Proxy Attack"⟩,
          ⟨5, "Unauthorized Upgrade Attack"⟩] }] }

/-- Embeds `class ImplementationProxyAttacksDetector(SimpleDetector)` from `src/implementation_proxy_attacks/workflow.py`. -/
def ImplementationProxyAttacksDetector : Detector := ⟨prompt⟩

/-- Embeds the zero-argument `factory` that `src/implementation_proxy_attacks/workflow.py` registers under the command name `implementation-proxy-attacks`; it returns `ImplementationProxyAttacksDetector()`. -/
def factory : Factory := fun _ => ImplementationProxyAttacksDetector

end ImplementationProxyAttacks

namespace InsuranceProtocolAttacks
/-- Structural skeleton of the string literal returned by `InsuranceProtocolAttacksDetector.get_detector_prompt` in `src/insurance_protocol_attacks/workflow.py`: its top-level `##` section headings in order, the vector count stated in the Task sentence, and the severity-band listing under Target Attack Vectors (each band with the count announced in its `###` heading, if any, and its enumerated bold-titled vectors in order). -/
def prompt : BriefDoc :=
  { sections := ["Task", "Target Attack Vectors", "Analysis Process", "Documentation Requirements", "Validation Criteria", "Special Focus Areas"],
    taskCount := 5,
    bands := [
      { sev := .critical, announced := some 2,
        vectors := [
          ⟨1, "Nexus Mutual Attack"⟩,
          ⟨2, "Cover Protocol Attack"⟩] },
      { sev := .high, announced := some 3,
        vectors := [
          ⟨3, "InsurAce Attack"⟩,
          ⟨4, "Unslashed Finance Attack"⟩,
          ⟨5, "Bright Union Attack"⟩] }] }

/-- Embeds `class InsuranceProtocolAttacksDetector(SimpleDetector)` from `src/insurance_protocol_attacks/workflow.py`. -/
def InsuranceProtocolAttacksDetector : Detector := ⟨prompt⟩

/-- Embeds the zero-argument `factory` that `src/insurance_protocol_attacks/workflow.py` registers under the command name `insurance-protocol-attacks`; it returns `InsuranceProtocolAttacksDetector()`. -/
def factory : Factory := fun _ => InsuranceProtocolAttacksDetector

end InsuranceProtocolAttacks

namespace IntentAAAttacks
/-- Structural skeleton of the string literal returned by `IntentAAAttacksDetector.get_detector_prompt` in `src/intent_aa_attacks/workflow.py`: its top-level `##` section headings in order, the vector count stated in the Task sentence, and the severity-band listing under Target Attack Vectors (each band with the count announced in its `###` heading, if any, and its enumerated bold-titled vectors in order). -/
def prompt : BriefDoc :=
  { sections := ["Task", "Target Attack Vectors", "Analysis Process", "Documentation Requirements", "Validation Criteria", "Special Focus Areas"],
    taskCount := 9,
    bands := [
      { sev := .critical, announced := some 2,
        vectors := [
          ⟨1, "Account Abstraction Paymaster Exploitation"⟩,
          ⟨2, "Cross-Intent Dependency Attack"⟩] },
      { sev := .high, announced := some 5,
        vectors := [
          ⟨3, "Intent Manipulation Attack"⟩,
          ⟨4, "Bundler Censorship Attack"⟩,
          ⟨5, "Intent Front-Running Attack"⟩,
          ⟨6, "UserOperation Replay Attack"⟩,
          ⟨7, "Signature Aggregation Manipulation"⟩] },
      { sev := .medium, announced := some 2,
        vectors := [
          ⟨8, "Intent Solver Manipulation"⟩,
          ⟨9, "Account Abstraction Factory Exploit"⟩] }] }

/-- Embeds `class IntentAAAttacksDetector(SimpleDetector)` from `src/intent_aa_attacks/workflow.py`. -/
def IntentAAAttacksDetector : Detector := ⟨prompt⟩

/-- Embeds the zero-argument `factory` that `src/intent_aa_attacks/workflow.py` registers under the command name `intent-aa-attacks`; it returns `IntentAAAttacksDetector()`. -/
def factory : Factory := fun _ => IntentAAAttacksDetector

end IntentAAAttacks

namespace L2SpecificAttacks
/-- Structural skeleton of the string literal returned by `L2SpecificAttacksDetector.get_detector_prompt` in `src/l2_specific_attacks/workflow.py`: its top-level `##` section headings in order, the vector count stated in the Task sentence, and the severity-band listing under Target Attack Vectors (each band with the count announced in its `###` heading, if any, and its enumerated bold-titled vectors in order). -/
def prompt : BriefDoc :=
  { sections := ["Task", "Target Attack Vectors (All Critical Severity)", "Analysis Process", "Documentation Requirements", "Validation Criteria", "Special Focus Areas"],
    taskCount := 7,
    bands := [
      { sev := .critical, announced := some 7,
        vectors := [
          ⟨1, "Optimism Fraud Proof Attack"⟩,
          ⟨2, "Arbitrum Delayed Inbox Attack"⟩,
          ⟨3, "Polygon Checkpoint Attack"⟩,
          ⟨4, "StarkNet L1-L2 Message Attack"⟩,
          ⟨5, "zkSync Commit Block Attack"⟩,
          ⟨6, "Rollup Fraud Proof Manipulation"⟩,
          ⟨7, "Enhanced Fraud Proof Attack"⟩] }] }

/-- Embeds `class L2SpecificAttacksDetector(SimpleDetector)` from `src/l2_specific_attacks/workflow.py`. -/
def L2SpecificAttacksDetector : Detector := ⟨prompt⟩

/-- Embeds the zero-argument `factory` that `src/l2_specific_attacks/workflow.py` registers under the command name `l2-specific-attacks`; it returns `L2SpecificAttacksDetector()`. -/
def factory : Factory := fun _ => L2SpecificAttacksDetector

end L2SpecificAttacks

namespace Layer2RollupAttacks
/-- Structural skeleton of the string literal returned by `Layer2RollupAttacksDetector.get_detector_prompt` in `src/layer2_rollup_attacks/workflow.py`: its top-level `##` section headings in order, the vector count stated in the Task sentence, and the severity-band listing under Target Attack Vectors (each band with the count announced in its `###` heading, if any, and its enumerated bold-titled vectors in order). -/
def prompt : BriefDoc :=
  { sections := ["Task", "Target Attack Vectors", "Analysis Process", "Documentation Requirements", "Validation Criteria", "Critical Security Patterns"],
    taskCount := 10,
    bands := [
      { sev := .critical, announced := some 7,
        vectors := [
          ⟨1, "Sequencer Manipulation Attack"⟩,
          ⟨2, "Rollup State Root Manipulation"⟩,
          ⟨3, "Cross-Layer MEV Extraction"⟩,
          ⟨4, "Rollup Finality Delay Exploitation"⟩,
          ⟨5, "State Channel Force-Close Attack"⟩,
          ⟨6, "Rollup Data Availability Attack"⟩,
          ⟨7, "Cross-Layer Liquidity Fragmentation Exploit"⟩] },
      { sev := .high, announced := some 3,
        vectors := [
          ⟨8, "Optimistic Rollup Challenge Period Abuse"⟩,
          ⟨9, "ZK-Rollup Proof Manipulation"⟩,
          ⟨10, "L2 Fee Market Manipulation"⟩] }] }

/-- Embeds `class Layer2RollupAttacksDetector(SimpleDetector)` from `src/layer2_rollup_attacks/workflow.py`. -/
def Layer2RollupAttacksDetector : Detector := ⟨prompt⟩

/-- Embeds the zero-argument `factory` that `src/layer2_rollup_attacks/workflow.py` registers under the command name `layer2-rollup-attacks`; it returns `Layer2RollupAttacksDetector()`. -/
def factory : Factory := fun _ => Layer2RollupAttacksDetector

end Layer2RollupAttacks

namespace LiquidRestakingAttacks
/-- Structural skeleton of the string literal returned by `LiquidRestakingAttacksDetector.get_detector_prompt` in `src/liquid_restaking_attacks/workflow.py`: its top-level `##` section headings in order, the vector count stated in the Task sentence, and the severity-band listing under Target Attack Vectors (each band with the count announced in its `###` heading, if any, and its enumerated bold-titled vectors in order). -/
def prompt : BriefDoc :=
  { sections := ["Task", "Target Attack Vectors", "Analysis Process", "Documentation Requirements", "Validation Criteria", "Special Focus Areas"],
    taskCount := 8,
    bands := [
      { sev := .critical, announced := some 4,
        vectors := [
          ⟨1, "Liquid Staking Token Depeg Exploitation"⟩,
          ⟨2, "Restaking Slashing Cascade Attack"⟩,
          ⟨3, "Cross-Protocol Staking Arbitrage"⟩,
          ⟨4, "Validator MEV Theft Attack"⟩] },
      { sev := .high, announced := some 3,
        vectors := [
          ⟨5, "Validator Set Manipulation"⟩,
          ⟨6, "Liquid Staking Withdrawal Queue Attack"⟩,
          ⟨7, "Staking Derivative Price Manipulation"⟩] },
      { sev := .medium, announced := some 1,
        vectors := [
          ⟨8, "Restaking Operator Collusion"⟩] }] }

/-- Embeds `class LiquidRestakingAttacksDetector(SimpleDetector)` from `src/liquid_restaking_attacks/workflow.py`. -/
def LiquidRestakingAttacksDetector : Detector := ⟨prompt⟩

/-- Embeds the zero-argument `factory` that `src/liquid_restaking_attacks/workflow.py` registers under the command name `liquid-restaking-attacks`; it returns `LiquidRestakingAttacksDetector()`. -/
def factory : Factory := fun _ => LiquidRestakingAttacksDetector

end LiquidRestakingAttacks

namespace LiquidityAttacks
/-- Structural skeleton of the string literal returned by `LiquidityAttacksDetector.get_detector_prompt` in `src/liquidity_attacks/workflow.py`: its top-level `##` section headings in order, the vector count stated in the Task sentence, and the severity-band listing under Target Attack Vectors (each band with the count announced in its `###` heading, if any, and its enumerated bold-titled vectors in order). -/
def prompt : BriefDoc :=
  { sections := ["Task", "Target Attack Vectors", "Analysis Process", "Documentation Requirements", "Validation Criteria", "Critical Security Patterns"],
    taskCount := 13,
    bands := [
      { sev := .critical, announced := some 9,
        vectors := [
          ⟨1, "Liquidity Lock Attack"⟩,
          ⟨2, "Advanced Liquidity Manipulation"⟩,
          ⟨3, "Liquidity Drain Attack"⟩,
          ⟨4, "AMM Pool Manipulation"⟩,
          ⟨5, "Curve Pool Manipulation"⟩,
          ⟨6, "Balancer Vault Attack"⟩,
          ⟨7, "Uniswap V2 Flash Swap Attack"⟩,
          ⟨8, "Uniswap V3 Flash Attack"⟩,
          ⟨9, "SushiSwap Kashi Attack"⟩,
          ⟨10, "Curve Meta Pool Attack"⟩] },
      { sev := .high, announced := some 3,
        vectors := [
          ⟨11, "Liquidity Sandwich Attack"⟩,
          ⟨12, "Impermanent Loss Exploit"⟩,
          ⟨13, "Slippage Manipulation Attack"⟩] }] }

/-- Embeds `class LiquidityAttacksDetector(SimpleDetector)` from `src/liquidity_attacks/workflow.py`. -/
def LiquidityAttacksDetector : Detector := ⟨prompt⟩

/-- Embeds the zero-argument `factory` that `src/liquidity_attacks/workflow.py` registers under the command name `liquidity-attacks`; it returns `LiquidityAttacksDetector()`. -/
def factory : Factory := fun _ => LiquidityAttacksDetector

end LiquidityAttacks

namespace MiningPoolAttacks
/-- Structural skeleton of the string literal returned by `MiningPoolAttacksDetector.get_detector_prompt` in `src/mining_pool_attacks/workflow.py`: its top-level `##` section headings in order, the vector count stated in the Task sentence, and the severity-band listing under Target Attack Vectors (each band with the count announced in its `###` heading, if any, and its enumerated bold-titled vectors in order). -/
def prompt : BriefDoc :=
  { sections := ["Task", "Target Attack Vectors (All High Severity)", "Analysis Process", "Documentation Requirements", "Validation Criteria", "Special Focus Areas"],
    taskCount := 5,
    bands := [
      { sev := .high, announced := some 5,
        vectors := [
          ⟨1, "EtherMine Attack"⟩,
          ⟨2, "F2Pool Attack"⟩,
          ⟨3, "SparkPool Attack"⟩,
          ⟨4, "FlexPool Attack"⟩,
          ⟨5, "NanoPool Attack"⟩] }] }

/-- Embeds `class MiningPoolAttacksDetector(SimpleDetector)` from `src/mining_pool_attacks/workflow.py`. -/
def MiningPoolAttacksDetector : Detector := ⟨prompt⟩

/-- Embeds the zero-argument `factory` that `src/mining_pool_attacks/workflow.py` registers under the command name `mining-pool-attacks`; it returns `MiningPoolAttacksDetector()`. -/
def factory : Factory := fun _ => MiningPoolAttacksDetector

end MiningPoolAttacks

namespace NFTAttacks
/-- Structural skeleton of the string literal returned by `NFTAttacksDetector.get_detector_prompt` in `src/nft_ai_attacks/workflow.py`: its top-level `##` section headings in order, the vector count stated in the Task sentence, and the severity-band listing under Target Attack Vectors (each band with the count announced in its `###` heading, if any, and its enumerated bold-titled vectors in order). -/
def prompt : BriefDoc :=
  { sections := ["Task", "Target Attack Vectors", "Analysis Process", "Documentation Requirements", "Validation Criteria", "Critical Security Patterns"],
    taskCount := 4,
    bands := [
      { sev := .high, announced := some 4,
        vectors := [
          ⟨1, "ERC1155 Batch Attack"⟩,
          ⟨2, "NFT Royalty Bypass Attack"⟩,
          ⟨3, "OpenSea Wyvern Attack"⟩,
          ⟨4, "Rarible Royalty Attack"⟩] }] }

/-- Embeds `class NFTAttacksDetector(SimpleDetector)` from `src/nft_ai_attacks/workflow.py`. -/
def NFTAttacksDetector : Detector := ⟨prompt⟩

/-- Embeds the zero-argument `factory` that `src/nft_ai_attacks/workflow.py` registers under the command name `nft-attacks`; it returns `NFTAttacksDetector()`. -/
def factory : Factory := fun _ => NFTAttacksDetector

end NFTAttacks

namespace OptionsProtocolAttacks
/-- Structural skeleton of the string literal returned by `OptionsProtocolAttacksDetector.get_detector_prompt` in `src/options_protocol_attacks/workflow.py`: its top-level `##` section headings in order, the vector count stated in the Task sentence, and the severity-band listing under Target Attack Vectors (each band with the count announced in its `###` heading, if any, and its enumerated bold-titled vectors in order). -/
def prompt : BriefDoc :=
  { sections := ["Task", "Target Attack Vectors (All High Severity)", "Analysis Process", "Documentation Requirements", "Validation Criteria", "Special Focus Areas"],
    taskCount := 5,
    bands := [
      { sev := .high, announced := some 5,
        vectors := [
          ⟨1, "Hegic Options Attack"⟩,
          ⟨2, "Opyn Gamma Attack"⟩,
          ⟨3, "Premia 2.0 Attack"⟩,
          ⟨4, "Dopex Options Attack"⟩,
          ⟨5, "Lyra Options Attack"⟩] }] }

/-- Embeds `class OptionsProtocolAttacksDetector(SimpleDetector)` from `src/options_protocol_attacks/workflow.py`. -/
def OptionsProtocolAttacksDetector : Detector := ⟨prompt⟩

/-- Embeds the zero-argument `factory` that `src/options_protocol_attacks/workflow.py` registers under the command name `options-protocol-attacks`; it returns `OptionsProtocolAttacksDetector()`. -/
def factory : Factory := fun _ => OptionsProtocolAttacksDetector

end OptionsProtocolAttacks

namespace OracleAttacks
/-- Structural skeleton of the string literal returned by `OracleAttacksDetector.get_detector_prompt` in `src/oracle_attacks/workflow.py`: its top-level `##` section headings in order, the vector count stated in the Task sentence, and the severity-band listing under Target Attack Vectors (each band with the count announced in its `###` heading, if any, and its enumerated bold-titled vectors in order). -/
def prompt : BriefDoc :=
  { sections := ["Task", "Target Attack Vectors", "Analysis Process", "Documentation Requirements", "Validation Criteria", "Critical Security Patterns"],
    taskCount := 9,
    bands := [
      { sev := .critical, announced := some 6,
        vectors := [
          ⟨1, "Direct Price Manipulation"⟩,
          ⟨2, "Flash Loan Oracle Attack"⟩,
          ⟨3, "Advanced Oracle Manipulation"⟩,
          ⟨4, "Chainlink Oracle Attack"⟩,
          ⟨5, "Uniswap TWAP Attack"⟩,
          ⟨6, "Oracle Price Setting"⟩] },
      { sev := .high, announced := some 3,
        vectors := [
          ⟨7, "Tellor Oracle Attack"⟩,
          ⟨8, "Band Protocol Attack"⟩,
          ⟨9, "DIA DATA Attack"⟩] }] }

/-- Embeds `class OracleAttacksDetector(SimpleDetector)` from `src/oracle_attacks/workflow.py`. -/
def OracleAttacksDetector : Detector := ⟨prompt⟩

/-- Embeds the zero-argument `factory` that `src/oracle_attacks/workflow.py` registers under the command name `oracle-attacks`; it returns `OracleAttacksDetector()`. -/
def factory : Factory := fun _ => OracleAttacksDetector

end OracleAttacks

namespace PerpetualProtocolAttacks
/-- Structural skeleton of the string literal returned by `PerpetualProtocolAttacksDetector.get_detector_prompt` in `src/perpetual_protocol_attacks/workflow.py`: its top-level `##` section headings in order, the vector count stated in the Task sentence, and the severity-band listing under Target Attack Vectors (each band with the count announced in its `###` heading, if any, and its enumerated bold-titled vectors in order). -/
def prompt : BriefDoc :=
  { sections := ["Task", "Target Attack Vectors", "Analysis Process", "Documentation Requirements", "Validation Criteria", "Special Focus Areas"],
    taskCount := 5,
    bands := [
      { sev := .critical, announced := some 4,
        vectors := [
          ⟨1, "Perpetual V1 Attack"⟩,
          ⟨2, "Perpetual V2 Attack"⟩,
          ⟨3, "dYdX Perpetual Attack"⟩,
          ⟨4, "GMX Perpetual Attack"⟩] },
      { sev := .high, announced := some 1,
        vectors := [
          ⟨5, "Gains Perpetual Attack"⟩] }] }

/-- Embeds `class PerpetualProtocolAttacksDetector(SimpleDetector)` from `src/perpetual_protocol_attacks/workflow.py`. -/
def PerpetualProtocolAttacksDetector : Detector := ⟨prompt⟩

/-- Embeds the zero-argument `factory` that `src/perpetual_protocol_attacks/workflow.py` registers under the command name `perpetual-protocol-attacks`; it returns `PerpetualProtocolAttacksDetector()`. -/
def factory : Factory := fun _ => PerpetualProtocolAttacksDetector

end PerpetualProtocolAttacks

namespace PoisonVanityContractAttacks
/-- Structural skeleton of the string literal returned by `PoisonVanityContractAttacksDetector.get_detector_prompt` in `src/poison_vanity_contract_attacks/workflow.py`: its top-level `##` section headings in order, the vector count stated in the Task sentence, and the severity-band listing under Target Attack Vectors (each band with the count announced in its `###` heading, if any, and its enumerated bold-titled vectors in order). -/
def prompt : BriefDoc :=
  { sections := ["Task", "Target Attack Vectors", "Analysis Process", "Documentation Requirements", "Validation Criteria", "Special Focus Areas"],
    taskCount := 3,
    bands := [
      { sev := .high, announced := some 1,
        vectors := [
          ⟨3, "Advanced Vanity Contract Attack"⟩] },
      { sev := .medium, announced := some 2,
        vectors := [
          ⟨1, "Poison Contract Fake History"⟩,
          ⟨2, "Vanity Address Manipulation"⟩] }] }

/-- Embeds `class PoisonVanityContractAttacksDetector(SimpleDetector)` from `src/poison_vanity_contract_attacks/workflow.py`. -/
def PoisonVanityContractAttacksDetector : Detector := ⟨prompt⟩

/-- Embeds the zero-argument `factory` that `src/poison_vanity_contract_attacks/workflow.py` registers under the command name `poison-vanity-contract-attacks`; it returns `PoisonVanityContractAttacksDetector()`. -/
def factory : Factory := fun _ => PoisonVanityContractAttacksDetector

end PoisonVanityContractAttacks

namespace PrivacyZKAttacks
/-- Structural skeleton of the string literal returned by `PrivacyZKAttacksDetector.get_detector_prompt` in `src/privacy_zk_attacks/workflow.py`: its top-level `##` section headings in order, the vector count stated in the Task sentence, and the severity-band listing under Target Attack Vectors (each band with the count announced in its `###` heading, if any, and its enumerated bold-titled vectors in order). -/
def prompt : BriefDoc :=
  { sections := ["Task", "Target Attack Vectors", "Analysis Process", "Documentation Requirements", "Validation Criteria", "Critical Security Patterns"],
    taskCount := 5,
    bands := [
      { sev := .medium, announced := some 2,
        vectors := [
          ⟨1, "Privacy Pool Economic Attack"⟩,
          ⟨2, "Anonymous Voting Manipulation"⟩] },
      { sev := .low, announced := some 3,
        vectors := [
          ⟨3, "Zero-Knowledge Proof Circuit Manipulation"⟩,
          ⟨4, "ZK-Rollup Privacy Leak Exploitation"⟩,
          ⟨5, "ZK-SNARK Trusted Setup Exploitation"⟩] }] }

/-- Embeds `class PrivacyZKAttacksDetector(SimpleDetector)` from `src/privacy_zk_attacks/workflow.py`. -/
def PrivacyZKAttacksDetector : Detector := ⟨prompt⟩

/-- Embeds the zero-argument `factory` that `src/privacy_zk_attacks/workflow.py` registers under the command name `privacy-zk-attacks`; it returns `PrivacyZKAttacksDetector()`. -/
def factory : Factory := fun _ => PrivacyZKAttacksDetector

end PrivacyZKAttacks

namespace RandomnessEntropyAttacks
/-- Structural skeleton of the string literal returned by `RandomnessEntropyAttacksDetector.get_detector_prompt` in `src/randomness_entropy_attacks/workflow.py`: its top-level `##` section headings in order, the vector count stated in the Task sentence, and the severity-band listing under Target Attack Vectors (each band with the count announced in its `###` heading, if any, and its enumerated bold-titled vectors in order). -/
def prompt : BriefDoc :=
  { sections := ["Task", "Target Attack Vectors (All Critical Severity)", "Analysis Process", "Documentation Requirements", "Validation Criteria", "Special Focus Areas"],
    taskCount := 2,
    bands := [
      { sev := .critical, announced := some 2,
        vectors := [
          ⟨1, "Randomness Manipulation Attack"⟩,
          ⟨2, "Enhanced Randomness Attack"⟩] }] }

/-- Embeds `class RandomnessEntropyAttacksDetector(SimpleDetector)` from `src/randomness_entropy_attacks/workflow.py`. -/
def RandomnessEntropyAttacksDetector : Detector := ⟨prompt⟩

/-- Embeds the zero-argument `factory` that `src/randomness_entropy_attacks/workflow.py` registers under the command name `randomness-entropy-attacks`; it returns `RandomnessEntropyAttacksDetector()`. -/
def factory : Factory := fun _ => RandomnessEntropyAttacksDetector

end RandomnessEntropyAttacks

namespace Reentrancy
/-- Structural skeleton of the string literal returned by `ReentrancyDetector.get_detector_prompt` in `src/reentrancy/workflow.py`: its top-level `##` section headings in order, the vector count stated in the Task sentence, and the severity-band listing under Target Attack Vectors (each band with the count announced in its `###` heading, if any, and its enumerated bold-titled vectors in order). -/
def prompt : BriefDoc :=
  { sections := ["Task", "Target Attack Vectors", "Analysis Process", "Documentation Requirements", "Validation Criteria", "Special Focus Areas"],
    taskCount := 10,
    bands := [
      { sev := .critical, announced := some 7,
        vectors := [
          ⟨1, "Basic Reentrancy Attack"⟩,
          ⟨2, "Cross-Contract Reentrancy Attack"⟩,
          ⟨3, "Recursive Reentrancy Attack"⟩,
          ⟨4, "Advanced Reentrancy with Flash Loans"⟩,
          ⟨5, "Cross-Function Reentrancy"⟩,
          ⟨6, "Delegated Call Reentrancy"⟩,
          ⟨7, "Flash Loan Reentrancy"⟩] },
      { sev := .high, announced := some 2,
        vectors := [
          ⟨8, "State-Dependent Reentrancy"⟩,
          ⟨9, "ERC721 Reentrancy Attack"⟩] },
      { sev := .medium, announced := some 1,
        vectors := [
          ⟨10, "View Function Reentrancy"⟩] }] }

/-- Embeds `class ReentrancyDetector(SimpleDetector)` from `src/reentrancy/workflow.py`. -/
def ReentrancyDetector : Detector := ⟨prompt⟩

/-- Embeds the zero-argument `factory` that `src/reentrancy/workflow.py` registers under the command name `reentrancy`; it returns `ReentrancyDetector()`. -/
def factory : Factory := fun _ => ReentrancyDetector

end Reentrancy

namespace RWATokenizationAttacks
/-- Structural skeleton of the string literal returned by `RWATokenizationAttacksDetector.get_detector_prompt` in `src/rwa_tokenization_attacks/workflow.py`: its top-level `##` section headings in order, the vector count stated in the Task sentence, and the severity-band listing under Target Attack Vectors (each band with the count announced in its `###` heading, if any, and its enumerated bold-titled vectors in order). -/
def prompt : BriefDoc :=
  { sections := ["Task", "Target Attack Vectors", "Analysis Process", "Documentation Requirements", "Validation Criteria", "Critical Security Patterns"],
    taskCount := 7,
    bands := [
      { sev := .critical, announced := some 2,
        vectors := [
          ⟨1, "Asset Custody Bridge Attack"⟩,
          ⟨2, "Asset Liquidation Manipulation"⟩] },
      { sev := .high, announced := some 2,
        vectors := [
          ⟨3, "Asset Valuation Oracle Manipulation"⟩,
          ⟨4, "Cross-Border Asset Transfer Exploit"⟩] },
      { sev := .medium, announced := some 3,
        vectors := [
          ⟨5, "Legal Jurisdiction Arbitrage Attack"⟩,
          ⟨6, "Regulatory Compliance Bypass"⟩,
          ⟨7, "Physical Asset Verification Bypass"⟩] }] }

/-- Embeds `class RWATokenizationAttacksDetector(SimpleDetector)` from `src/rwa_tokenization_attacks/workflow.py`. -/
def RWATokenizationAttacksDetector : Detector := ⟨prompt⟩

/-- Embeds the zero-argument `factory` that `src/rwa_tokenization_attacks/workflow.py` registers under the command name `rwa-tokenization-attacks`; it returns `RWATokenizationAttacksDetector()`. -/
def factory : Factory := fun _ => RWATokenizationAttacksDetector

end RWATokenizationAttacks

namespace SignatureCryptoAttacks
/-- Structural skeleton of the string literal returned by `SignatureCryptoAttacksDetector.get_detector_prompt` in `src/signature_crypto_attacks/workflow.py`: its top-level `##` section headings in order, the vector count stated in the Task sentence, and the severity-band listing under Target Attack Vectors (each band with the count announced in its `###` heading, if any, and its enumerated bold-titled vectors in order). -/
def prompt : BriefDoc :=
  { sections := ["Task", "Target Attack Vectors", "Analysis Process", "Documentation Requirements", "Validation Criteria", "Special Focus Areas"],
    taskCount := 9,
    bands := [
      { sev := .critical, announced := some 2,
        vectors := [
          ⟨1, "Advanced Cryptographic Attack"⟩,
          ⟨2, "Hash Collision Exploit"⟩] },
      { sev := .high, announced := some 7,
        vectors := [
          ⟨3, "Signature Replay Attack"⟩,
          ⟨4, "Enhanced Signature Manipulation"⟩,
          ⟨5, "EIP-1559 Chain ID Manipulation"⟩,
          ⟨6, "Nonce Manipulation Attack"⟩,
          ⟨7, "EIP-712 Signature Forgery"⟩,
          ⟨8, "Signature Verification Bypass"⟩,
          ⟨9, "Merkle Proof Manipulation"⟩] }] }

/-- Embeds `class SignatureCryptoAttacksDetector(SimpleDetector)` from `src/signature_crypto_attacks/workflow.py`. -/
def SignatureCryptoAttacksDetector : Detector := ⟨prompt⟩

/-- Embeds the zero-argument `factory` that `src/signature_crypto_attacks/workflow.py` registers under the command name `signature-crypto-attacks`; it returns `SignatureCryptoAttacksDetector()`. -/
def factory : Factory := fun _ => SignatureCryptoAttacksDetector

end SignatureCryptoAttacks

namespace SpecializedTokenAttacks
/-- Structural skeleton of the string literal returned by `SpecializedTokenAttacksDetector.get_detector_prompt` in `src/specialized_token_attacks/workflow.py`: its top-level `##` section headings in order, the vector count stated in the Task sentence, and the severity-band listing under Target Attack Vectors (each band with the count announced in its `###` heading, if any, and its enumerated bold-titled vectors in order). -/
def prompt : BriefDoc :=
  { sections := ["Task", "Target Attack Vectors (All High Severity)", "Analysis Process", "Documentation Requirements", "Validation Criteria", "Special Focus Areas"],
    taskCount := 6,
    bands := [
      { sev := .high, announced := some 6,
        vectors := [
          ⟨1, "Fee-on-Transfer Token Manipulation"⟩,
          ⟨2, "Rebasing Token Manipulation"⟩,
          ⟨3, "Pausable Token Attack"⟩,
          ⟨4, "Blacklist Token Attack"⟩,
          ⟨5, "Deflationary Token Attack"⟩,
          ⟨6, "Non-Standard Token Attack"⟩] }] }

/-- Embeds `class SpecializedTokenAttacksDetector(SimpleDetector)` from `src/specialized_token_attacks/workflow.py`. -/
def SpecializedTokenAttacksDetector : Detector := ⟨prompt⟩

/-- Embeds the zero-argument `factory` that `src/specialized_token_attacks/workflow.py` registers under the command name `specialized-token-attacks`; it returns `SpecializedTokenAttacksDetector()`. -/
def factory : Factory := fun _ => SpecializedTokenAttacksDetector

end SpecializedTokenAttacks

namespace StakingAttacks
/-- Structural skeleton of the string literal returned by `StakingAttacksDetector.get_detector_prompt` in `src/staking_attacks/workflow.py`: its top-level `##` section headings in order, the vector count stated in the Task sentence, and the severity-band listing under Target Attack Vectors (each band with the count announced in its `###` heading, if any, and its enumerated bold-titled vectors in order). -/
def prompt : BriefDoc :=
  { sections := ["Task", "Target Attack Vectors", "Analysis Process", "Documentation Requirements", "Validation Criteria", "Critical Security Patterns"],
    taskCount := 5,
    bands := [
      { sev := .critical, announced := some 3,
        vectors := [
          ⟨1, "ETH2 Validator Attack"⟩,
          ⟨2, "Lido Staking Attack"⟩,
          ⟨3, "RocketPool Node Attack"⟩] },
      { sev := .high, announced := some 2,
        vectors := [
          ⟨4, "StakeWise Pool Attack"⟩,
          ⟨5, "Frax ETH Minting Attack"⟩] }] }

/-- Embeds `class StakingAttacksDetector(SimpleDetector)` from `src/staking_attacks/workflow.py`. -/
def StakingAttacksDetector : Detector := ⟨prompt⟩

/-- Embeds the zero-argument `factory` that `src/staking_attacks/workflow.py` registers under the command name `staking-attacks`; it returns `StakingAttacksDetector()`. -/
def factory : Factory := fun _ => StakingAttacksDetector

end StakingAttacks

namespace StateCorruption
/-- Structural skeleton of the string literal returned by `StateCorruptionDetector.get_detector_prompt` in `src/state_corruption/workflow.py`: its top-level `##` section headings in order, the vector count stated in the Task sentence, and the severity-band listing under Target Attack Vectors (each band with the count announced in its `###` heading, if any, and its enumerated bold-titled vectors in order). -/
def prompt : BriefDoc :=
  { sections := ["Task", "Target Attack Vectors", "Analysis Process", "Documentation Requirements", "Validation Criteria", "Special Analysis Targets"],
    taskCount := 25,
    bands := [
      { sev := .critical, announced := some 13,
        vectors := [
          ⟨1, "Storage Slot Manipulation"⟩,
          ⟨2, "State Desynchronization"⟩,
          ⟨3, "Delegatecall Storage Attack"⟩,
          ⟨4, "Enhanced Delegatecall Attack"⟩,
          ⟨5, "Self-Destruct Attack"⟩,
          ⟨6, "Enhanced Self-Destruct Attack"⟩,
          ⟨7, "CREATE2 Self-Destruct Attack"⟩,
          ⟨8, "Enhanced CREATE2 Self-Destruct"⟩,
          ⟨9, "Bytecode Injection Attack"⟩,
          ⟨10, "Enhanced Bytecode Injection"⟩,
          ⟨11, "Opcode Manipulation Attack"⟩,
          ⟨12, "Enhanced Opcode Attack"⟩] },
      { sev := .high, announced := some 11,
        vectors := [
          ⟨13, "Variable Corruption"⟩,
          ⟨14, "Stack Overflow Attack"⟩,
          ⟨15, "Function Selector Attack"⟩,
          ⟨16, "Enhanced Function Selector Attack"⟩,
          ⟨17, "CREATE2 Deployment Attack"⟩,
          ⟨18, "Enhanced CREATE2 Attack"⟩,
          ⟨19, "Calldata Manipulation Attack"⟩,
          ⟨20, "Enhanced Calldata Attack"⟩,
          ⟨21, "Memory Manipulation Attack"⟩,
          ⟨22, "Bytecode Hash Attack"⟩,
          ⟨23, "Enhanced Hash Attack"⟩] },
      { sev := .medium, announced := some 2,
        vectors := [
          ⟨24, "Calldata Length Attack"⟩,
          ⟨25, "Enhanced Length Attack"⟩] }] }

/-- Embeds `class StateCorruptionDetector(SimpleDetector)` from `src/state_corruption/workflow.py`. -/
def StateCorruptionDetector : Detector := ⟨prompt⟩

/-- Embeds the zero-argument `factory` that `src/state_corruption/workflow.py` registers under the command name `state-corruption`; it returns `StateCorruptionDetector()`. -/
def factory : Factory := fun _ => StateCorruptionDetector

end StateCorruption

namespace TimeBasedAttacks
/-- Structural skeleton of the string literal returned by `TimeBasedAttacksDetector.get_detector_prompt` in `src/time_based_attacks/workflow.py`: its top-level `##` section headings in order, the vector count stated in the Task sentence, and the severity-band listing under Target Attack Vectors (each band with the count announced in its `###` heading, if any, and its enumerated bold-titled vectors in order). -/
def prompt : BriefDoc :=
  { sections := ["Task", "Target Attack Vectors", "Analysis Process", "Documentation Requirements", "Validation Criteria", "Special Focus Areas"],
    taskCount := 7,
    bands := [
      { sev := .critical, announced := some 1,
        vectors := [
          ⟨1, "Enhanced Time Manipulation with Admin Features"⟩] },
      { sev := .high, announced := some 6,
        vectors := [
          ⟨2, "Time Manipulation Attack"⟩,
          ⟨3, "Block Hash Attack"⟩,
          ⟨4, "Enhanced Time Attack"⟩,
          ⟨5, "Timestamp Manipulation"⟩,
          ⟨6, "Time-Lock Attack"⟩,
          ⟨7, "Block Hash Manipulation"⟩] }] }

/-- Embeds `class TimeBasedAttacksDetector(SimpleDetector)` from `src/time_based_attacks/workflow.py`. -/
def TimeBasedAttacksDetector : Detector := ⟨prompt⟩

/-- Embeds the zero-argument `factory` that `src/time_based_attacks/workflow.py` registers under the command name `time-based-attacks`; it returns `TimeBasedAttacksDetector()`. -/
def factory : Factory := fun _ => TimeBasedAttacksDetector

end TimeBasedAttacks

namespace TokenVestingAttacks
/-- Structural skeleton of the string literal returned by `TokenVestingAttacksDetector.get_detector_prompt` in `src/token_vesting_attacks/workflow.py`: its top-level `##` section headings in order, the vector count stated in the Task sentence, and the severity-band listing under Target Attack Vectors (each band with the count announced in its `###` heading, if any, and its enumerated bold-titled vectors in order). -/
def prompt : BriefDoc :=
  { sections := ["Task", "Target Attack Vectors (All High Severity)", "Analysis Process", "Documentation Requirements", "Validation Criteria", "Special Focus Areas"],
    taskCount := 5,
    bands := [
      { sev := .high, announced := some 5,
        vectors := [
          ⟨1, "Linear Vesting Attack"⟩,
          ⟨2, "Merkle Vesting Attack"⟩,
          ⟨3, "Time-Locked Vesting Attack"⟩,
          ⟨4, "Sablier Stream Attack"⟩,
          ⟨5, "LlamaPay Stream Attack"⟩] }] }

/-- Embeds `class TokenVestingAttacksDetector(SimpleDetector)` from `src/token_vesting_attacks/workflow.py`. -/
def TokenVestingAttacksDetector : Detector := ⟨prompt⟩

/-- Embeds the zero-argument `factory` that `src/token_vesting_attacks/workflow.py` registers under the command name `token-vesting-attacks`; it returns `TokenVestingAttacksDetector()`. -/
def factory : Factory := fun _ => TokenVestingAttacksDetector

end TokenVestingAttacks

namespace VMZKProofAttacks
/-- Structural skeleton of the string literal returned by `VMZKProofAttacksDetector.get_detector_prompt` in `src/vm_zk_proof_attacks/workflow.py`: its top-level `##` section headings in order, the vector count stated in the Task sentence, and the severity-band listing under Target Attack Vectors (each band with the count announced in its `###` heading, if any, and its enumerated bold-titled vectors in order). -/
def prompt : BriefDoc :=
  { sections := ["Task", "Target Attack Vectors", "Analysis Process", "Documentation Requirements", "Validation Criteria", "Special Focus Areas"],
    taskCount := 8,
    bands := [
      { sev := .critical, announced := some 4,
        vectors := [
          ⟨1, "Prover Compromise Attack"⟩,
          ⟨2, "Enhanced Prover Compromise"⟩,
          ⟨3, "State Transition Manipulation"⟩,
          ⟨4, "Enhanced State Transition Attack"⟩] },
      { sev := .high, announced := some 4,
        vectors := [
          ⟨5, "ZK Proof Manipulation"⟩,
          ⟨6, "Enhanced ZK Proof Manipulation"⟩,
          ⟨7, "VM Instruction Exploitation"⟩,
          ⟨8, "Enhanced VM Exploit"⟩] }] }

/-- Embeds `class VMZKProofAttacksDetector(SimpleDetector)` from `src/vm_zk_proof_attacks/workflow.py`. -/
def VMZKProofAttacksDetector : Detector := ⟨prompt⟩

/-- Embeds the zero-argument `factory` that `src/vm_zk_proof_attacks/workflow.py` registers under the command name `vm-zk-proof-attacks`; it returns `VMZKProofAttacksDetector()`. -/
def factory : Factory := fun _ => VMZKProofAttacksDetector

end VMZKProofAttacks

namespace YieldFarmingAttacks
/-- Structural skeleton of the string literal returned by `YieldFarmingAttacksDetector.get_detector_prompt` in `src/yield_farming_attacks/workflow.py`: its top-level `##` section headings in order, the vector count stated in the Task sentence, and the severity-band listing under Target Attack Vectors (each band with the count announced in its `###` heading, if any, and its enumerated bold-titled vectors in order). -/
def prompt : BriefDoc :=
  { sections := ["Task", "Target Attack Vectors", "Analysis Process", "Documentation Requirements", "Validation Criteria", "Special Focus Areas"],
    taskCount := 5,
    bands := [
      { sev := .critical, announced := some 2,
        vectors := [
          ⟨1, "MasterChef Attack"⟩,
          ⟨2, "Tomb Finance Attack"⟩] },
      { sev := .high, announced := some 3,
        vectors := [
          ⟨3, "PancakeSwap Farm Attack"⟩,
          ⟨4, "SpiritSwap Farm Attack"⟩,
          ⟨5, "QuickSwap Farm Attack"⟩] }] }

/-- Embeds `class YieldFarmingAttacksDetector(SimpleDetector)` from `src/yield_farming_attacks/workflow.py`. -/
def YieldFarmingAttacksDetector : Detector := ⟨prompt⟩

/-- Embeds the zero-argument `factory` that `src/yield_farming_attacks/workflow.py` registers under the command name `yield-farming-attacks`; it returns `YieldFarmingAttacksDetector()`. -/
def factory : Factory := fun _ => YieldFarmingAttacksDetector

end YieldFarmingAttacks

/-- The 43 registrations performed at import time by the modules under `src/`: each `workflow.py` decorates its `factory` with `workflow.command(name=...)` exactly once. Listed in alphabetical module order, the order of the startup import sweep. -/
def registrations : List (String × Factory) := [
  ("access-control", AccessControl.factory),
  ("advanced-block-building-attacks", AdvancedBlockBuildingAttacks.factory),
  ("advanced-compound-attacks", AdvancedCompoundAttacks.factory),
  ("ai-assisted-attacks", AIAssistedAttacks.factory),
  ("arithmetic-attacks", ArithmeticAttacks.factory),
  ("asset-lock-bridge-attacks", AssetLockBridgeAttacks.factory),
  ("constructor-initialization-attacks", ConstructorInitializationAttacks.factory),
  ("core-attacks", CoreAttackMechanisms.factory),
  ("cross-chain-attacks", CrossChainAttacks.factory),
  ("defi-protocol-attacks", DeFiProtocolAttacks.factory),
  ("distraction-stealth-attacks", DistractionStealthAttacks.factory),
  ("emergency-orchestration-attacks", EmergencyOrchestrationAttacks.factory),
  ("event-history-manipulation-attacks", EventHistoryManipulationAttacks.factory),
  ("flashloan-mev-attacks", FlashLoanMEVAttacks.factory),
  ("gas-attacks", GasAttacks.factory),
  ("governance", Governance.factory),
  ("honeypot-mechanism-attacks", HoneypotMechanismAttacks.factory),
  ("identity-naming-attacks", IdentityNamingAttacks.factory),
  ("implementation-proxy-attacks", ImplementationProxyAttacks.factory),
  ("insurance-protocol-attacks", InsuranceProtocolAttacks.factory),
  ("intent-aa-attacks", IntentAAAttacks.factory),
  ("l2-specific-attacks", L2SpecificAttacks.factory),
  ("layer2-rollup-attacks", Layer2RollupAttacks.factory),
  ("liquid-restaking-attacks", LiquidRestakingAttacks.factory),
  ("liquidity-attacks", LiquidityAttacks.factory),
  ("mining-pool-attacks", MiningPoolAttacks.factory),
  ("nft-attacks", NFTAttacks.factory),
  ("options-protocol-attacks", OptionsProtocolAttacks.factory),
  ("oracle-attacks", OracleAttacks.factory),
  ("perpetual-protocol-attacks", PerpetualProtocolAttacks.factory),
  ("poison-vanity-contract-attacks", PoisonVanityContractAttacks.factory),
  ("privacy-zk-attacks", PrivacyZKAttacks.factory),
  ("randomness-entropy-attacks", RandomnessEntropyAttacks.factory),
  ("reentrancy", Reentrancy.factory),
  ("rwa-tokenization-attacks", RWATokenizationAttacks.factory),
  ("signature-crypto-attacks", SignatureCryptoAttacks.factory),
  ("specialized-token-attacks", SpecializedTokenAttacks.factory),
  ("staking-attacks", StakingAttacks.factory),
  ("state-corruption", StateCorruption.factory),
  ("time-based-attacks", TimeBasedAttacks.factory),
  ("token-vesting-attacks", TokenVestingAttacks.factory),
  ("vm-zk-proof-attacks", VMZKProofAttacks.factory),
  ("yield-farming-attacks", YieldFarmingAttacks.factory)]

/-- Modelled from the spec: the error taxonomy of the command registry
(`DuplicateCommandError`, `UnknownCommandError`); the registry lives in the
external `wake_ai` package, not under `src/`. -/
inductive RegistryError where
  | duplicateCommand (name : String)
  | unknownCommand (name : String)
deriving DecidableEq, Repr

/-- Modelled from the spec: the process-wide command registry, an append-only
table of command descriptors (name, factory) kept in registration order. -/
structure Registry where
  entries : List (String × Factory)

/-- The empty registry the process starts with. -/
def Registry.empty : Registry :=
  ⟨[]⟩

/-- Modelled from the spec: `list()` returns all registered names in
registration order. -/
def Registry.names (r : Registry) : List String :=
  r.entries.map Prod.fst

/-- Modelled from the spec: `register(name, factory)` inserts a descriptor,
failing with `DuplicateCommandError` if the name already exists. -/
def Registry.register (r : Registry) (name : String) (f : Factory) :
    Except RegistryError Registry :=
  if name ∈ r.names then
    .error (.duplicateCommand name)
  else
    .ok ⟨r.entries ++ [(name, f)]⟩

/-- Modelled from the spec: `register` as a transition on the process-wide
registry state — it returns the raised error, if any, together with the
registry state after the call (unchanged when the call fails). -/
def Registry.registerRun (r : Registry) (name : String) (f : Factory) :
    Option RegistryError × Registry :=
  match r.register name f with
  | .ok r' => (none, r')
  | .error e => (some e, r)

/-- Modelled from the spec: `resolve(name)` returns the registered factory or
fails with `UnknownCommandError`; no side effects. -/
def Registry.resolve (r : Registry) (name : String) : Except RegistryError Factory :=
  match r.entries.lookup name with
  | some f => .ok f
  | none => .error (.unknownCommand name)

/-- Resolving a name and invoking the returned zero-argument factory, as the
external runner does; yields the constructed detector. -/
def Registry.resolveDetector (r : Registry) (name : String) :
    Except RegistryError Detector :=
  (r.resolve name).map fun f => f ()

/-- One step of the startup registration sweep: a registration that has
already failed halts initialization (the error is fatal and never recovered),
otherwise the next module's registration runs against the current state. -/
def sweepStep (acc : Option RegistryError × Registry) (e : String × Factory) :
    Option RegistryError × Registry :=
  match acc with
  | (some err, r) => (some err, r)
  | (none, r) => r.registerRun e.1 e.2

/-- The startup registration sweep: starting from the empty registry, every
module under `src/` registers its factory in import order. -/
def startup : Option RegistryError × Registry :=
  registrations.foldl sweepStep (none, Registry.empty)

/-- The process-wide registry as it stands after the startup sweep. -/
def registry : Registry :=
  startup.2

/-- The detectors constructed by the 43 registered factories, one each. -/
def allDetectors : List Detector :=
  registrations.map fun e => e.2 ()

/-- Effectful embedding of a `get_detector_prompt` call against an ambient
environment of type `W`: every implementation in `src/` is a single `return`
of a string literal — it reads nothing from and writes nothing to any ambient
state — so the call yields the brief and passes the environment through. -/
def callBrief (W : Type) (d : Detector) (w : W) : BriefDoc × W :=
  (produce_brief d, w)

/-- Checks that a brief has the shape the external runner expects: it is
non-empty, its sections include the Task statement, the Analysis Process, the
Documentation Requirements and the Validation Criteria, and it enumerates at
least one severity band, each band holding at least one vector. -/
def briefComplete (b : BriefDoc) : Bool :=
  !b.sections.isEmpty &&
  b.sections.contains "Task" &&
  b.sections.contains "Analysis Process" &&
  b.sections.contains "Documentation Requirements" &&
  b.sections.contains "Validation Criteria" &&
  !b.bands.isEmpty &&
  b.bands.all fun band => !band.vectors.isEmpty

/-- The severity ranks of a brief's vectors in order of appearance (each
vector carries the severity of the band it is listed under). -/
def sevRanks (b : BriefDoc) : List Nat :=
  (b.bands.map fun band => band.vectors.map fun _ => band.sev.rank).flatten

/-- The vector identifiers (bold titles) of a brief in rendered order. -/
def renderedTitles (b : BriefDoc) : List String :=
  (b.bands.map fun band => band.vectors.map AttackVector.title).flatten

/-- Boolean check that a list has no duplicates. -/
def nodupBool : List String → Bool
  | [] => true
  | x :: xs => !xs.contains x && nodupBool xs

/-- Checks that every band heading that announces a vector count announces
exactly the number of vectors enumerated under it. -/
def bandCountsConsistent (b : BriefDoc) : Bool :=
  b.bands.all fun band =>
    match band.announced with
    | some n => n == band.vectors.length
    | none => true

/-- Checks that the vector count stated in the Task sentence equals the number
of vectors actually enumerated in the brief. -/
def taskCountConsistent (b : BriefDoc) : Bool :=
  b.taskCount == (renderedTitles b).length

/-- Boolean check that one Nat is at most another, lifted over a list: the
list of ranks is sorted in non-decreasing order, i.e. every vector of a more
severe band appears before every vector of a less severe one. -/
def ranksSorted : List Nat → Bool
  | [] => true
  | [_] => true
  | a :: b :: rest => Nat.ble a b && ranksSorted (b :: rest)

/-- Character-level check for kebab-case: lowercase letters, digits and single
hyphens, not ending in a hyphen. -/
def kebabChars : List Char → Bool
  | [] => false
  | [c] => c.isLower || c.isDigit
  | c :: c' :: rest =>
    (c.isLower || c.isDigit || (c == '-' && c' != '-')) && kebabChars (c' :: rest)

/-- Kebab-case command names: non-empty, opening with a lowercase letter,
built from lowercase letters, digits and single hyphens, not ending in a
hyphen. -/
def isKebabCase (s : String) : Bool :=
  match s.toList with
  | [] => false
  | c :: _ => c.isLower && kebabChars s.toList

/-- Modelled from the spec: the render-time error raised on an empty catalog
(`EmptyCatalogError`); the renderer lives in the external `wake_ai` package,
not under `src/`. -/
inductive RenderError where
  | emptyCatalog
deriving DecidableEq, Repr

/-- Modelled from the spec: `render(template_skeleton, catalog)` combines the
fixed skeleton sections with the catalog's severity bands into the brief,
failing with `EmptyCatalogError` when the catalog holds no vector. -/
def render (sections : List String) (taskCount : Nat) (bands : List Band) :
    Except RenderError BriefDoc :=
  if (bands.map Band.vectors).flatten = [] then
    .error .emptyCatalog
  else
    .ok ⟨sections, taskCount, bands⟩

/-- Runs a boolean check against the detector a registry resolves a name to:
`some` of the check's verdict when resolution succeeds, `none` when it fails. -/
def resolveCheck (r : Registry) (p : Detector → Bool) (name : String) : Option Bool :=
  (r.resolveDetector name).toOption.map p

/-- The four command names whose briefs carry a band heading announcing a
vector count different from the number of vectors enumerated under it. -/
def staleBandHeadingNames : List String :=
  ["access-control", "core-attacks", "liquidity-attacks", "state-corruption"]

/-- A heap-counter model of Python object construction: a factory call
constructs its detector as a new object at the next free heap id, so every
invocation yields a fresh instance. -/
structure ObjInstance where
  oid : Nat
  det : Detector

/-- Invoking a zero-argument factory against the allocation counter: the
constructed detector becomes a fresh object and the counter advances. -/
def invokeFactory (f : Factory) (heap : Nat) : ObjInstance × Nat :=
  (⟨heap, f ()⟩, heap + 1)

/-- C1: every one of the 43 registered command names resolves to a factory
whose zero-argument invocation yields a detector whose brief is non-empty and
contains a task statement, an enumerated list of attack vectors carrying
severity labels, an analysis-process section, documentation requirements and
validation criteria. -/
theorem resolve_and_brief_complete :
    registry.names.length = 43 ∧
    ∀ name ∈ registry.names,
      resolveCheck registry (fun d => briefComplete (produce_brief d)) name = some true :=
  ⟨by decide, by decide⟩

/-- Witness for C1 at the command name `reentrancy`. -/
theorem resolve_and_brief_complete_witness :
    "reentrancy" ∈ registry.names ∧
    resolveCheck registry (fun d => briefComplete (produce_brief d)) "reentrancy" = some true :=
  ⟨by decide, resolve_and_brief_complete.2 "reentrancy" (by decide)⟩

/-- C2: for every detector of the repository, `produce_brief` is pure and
deterministic — a call against any ambient environment returns the same brief
as a call against any other environment, leaves the environment untouched, and
a second call on the same detector instance, in the environment left behind by
the first, returns an identical brief. -/
theorem produce_brief_pure (W : Type) (d : Detector) (hd : d ∈ allDetectors)
    (w w' : W) :
    (callBrief W d w).1 = (callBrief W d w').1 ∧
    (callBrief W d w).2 = w ∧
    (callBrief W d (callBrief W d w).2).1 = (callBrief W d w).1 :=
  ⟨rfl, rfl, rfl⟩

/-- Witness for C2 at the reentrancy detector over a natural-number
environment. -/
theorem produce_brief_pure_witness :
    Reentrancy.factory () ∈ allDetectors ∧
    ((callBrief Nat (Reentrancy.factory ()) 0).1 =
        (callBrief Nat (Reentrancy.factory ()) 5).1 ∧
      (callBrief Nat (Reentrancy.factory ()) 0).2 = 0 ∧
      (callBrief Nat (Reentrancy.factory ())
          (callBrief Nat (Reentrancy.factory ()) 0).2).1 =
        (callBrief Nat (Reentrancy.factory ()) 0).1) :=
  ⟨by decide, produce_brief_pure Nat (Reentrancy.factory ()) (by decide) 0 5⟩

/-- C3: in every registered detector's brief the vectors appear in
non-increasing severity order — every critical vector before every high one,
every high before every medium, every medium before every low. -/
theorem briefs_severity_ordered :
    ∀ name ∈ registry.names,
      resolveCheck registry (fun d => ranksSorted (sevRanks (produce_brief d))) name =
        some true := by
  decide

/-- Witness for C3 at the command name `oracle-attacks`. -/
theorem briefs_severity_ordered_witness :
    "oracle-attacks" ∈ registry.names ∧
    resolveCheck registry (fun d => ranksSorted (sevRanks (produce_brief d)))
      "oracle-attacks" = some true :=
  ⟨by decide, briefs_severity_ordered "oracle-attacks" (by decide)⟩

/-- C4 counterexample: the registered command `access-control` resolves to a
detector whose brief has a band heading announcing a vector count different
from the number of vectors enumerated under it (its critical band announces 11
vectors but lists 10, its high band announces 6 but lists 7), so the claim
fails as stated. -/
theorem band_heading_counts_counterexample :
    "access-control" ∈ registry.names ∧
    resolveCheck registry (fun d => bandCountsConsistent (produce_brief d))
      "access-control" = some false := by
  decide

/-- C4 amended: in every registered detector's brief the rendered vector
identifiers are pairwise distinct and as many as the catalog's vectors, and
the total announced in the task statement equals the number of vectors
enumerated; the per-band heading counts also match everywhere except in the
four briefs (`access-control`, `core-attacks`, `liquidity-attacks`,
`state-corruption`) whose critical or high band headings announce a stale
count. -/
theorem rendered_vector_counts :
    ∀ name ∈ registry.names,
      resolveCheck registry
          (fun d =>
            nodupBool (renderedTitles (produce_brief d)) &&
            (renderedTitles (produce_brief d)).length == d.catalog.length &&
            taskCountConsistent (produce_brief d))
          name = some true ∧
      (name ∉ staleBandHeadingNames →
        resolveCheck registry (fun d => bandCountsConsistent (produce_brief d)) name =
          some true) := by
  decide

/-- Witness for C4 (amended) at the command name `governance`. -/
theorem rendered_vector_counts_witness :
    "governance" ∈ registry.names ∧
    "governance" ∉ staleBandHeadingNames ∧
    resolveCheck registry
        (fun d =>
          nodupBool (renderedTitles (produce_brief d)) &&
          (renderedTitles (produce_brief d)).length == d.catalog.length &&
          taskCountConsistent (produce_brief d))
        "governance" = some true ∧
    resolveCheck registry (fun d => bandCountsConsistent (produce_brief d))
      "governance" = some true :=
  ⟨by decide, by decide,
    (rendered_vector_counts "governance" (by decide)).1,
    (rendered_vector_counts "governance" (by decide)).2 (by decide)⟩

/-- C5: the command `reentrancy` resolves to its registered factory, and the
constructed detector's brief lists exactly 10 distinct vector identifiers in
three bands of 7 critical, 2 high and 1 medium vectors, every critical vector
before every high one and every high before the medium one. -/
theorem reentrancy_brief_shape :
    registry.resolve "reentrancy" = .ok Reentrancy.factory ∧
    (produce_brief (Reentrancy.factory ())).bands.map
        (fun band => (band.sev, band.vectors.length)) =
      [(.critical, 7), (.high, 2), (.medium, 1)] ∧
    nodupBool (renderedTitles (produce_brief (Reentrancy.factory ()))) = true ∧
    (renderedTitles (produce_brief (Reentrancy.factory ()))).length = 10 ∧
    ranksSorted (sevRanks (produce_brief (Reentrancy.factory ()))) = true :=
  ⟨rfl, by decide, by decide, by decide, by decide⟩

/-- C6: registering a name already present in a registry raises
`DuplicateCommandError` and leaves the registry's descriptors exactly as they
were before the call. -/
theorem register_duplicate_atomic (r : Registry) (name : String) (f : Factory)
    (h : name ∈ r.names) :
    (r.registerRun name f).1 = some (.duplicateCommand name) ∧
    (r.registerRun name f).2 = r := by
  simp [Registry.registerRun, Registry.register, h]

/-- Witness for C6: re-registering `reentrancy` against the startup registry
fails and changes nothing. -/
theorem register_duplicate_atomic_witness :
    "reentrancy" ∈ registry.names ∧
    ((registry.registerRun "reentrancy" Governance.factory).1 =
        some (.duplicateCommand "reentrancy") ∧
      (registry.registerRun "reentrancy" Governance.factory).2 = registry) :=
  ⟨by decide, register_duplicate_atomic registry "reentrancy" Governance.factory (by decide)⟩

/-- C7: the 43 command names registered by the modules under `src/` are
pairwise distinct kebab-case strings including `access-control`, `reentrancy`
and `oracle-attacks`, and the startup registration sweep over all of them
raises no error at all. -/
theorem command_names_unique_kebab :
    (registrations.map Prod.fst).length = 43 ∧
    nodupBool (registrations.map Prod.fst) = true ∧
    (registrations.map Prod.fst).all isKebabCase = true ∧
    "access-control" ∈ registrations.map Prod.fst ∧
    "reentrancy" ∈ registrations.map Prod.fst ∧
    "oracle-attacks" ∈ registrations.map Prod.fst ∧
    startup.1 = none := by
  decide

/-- C8: rendering an empty catalog fails with `EmptyCatalogError`, while every
registered detector's catalog is non-empty and renders successfully back to
its brief, so no registered detector's brief production can hit that error. -/
theorem empty_catalog_render (sections : List String) (taskCount : Nat)
    (bands : List Band) (h : (bands.map Band.vectors).flatten = []) :
    render sections taskCount bands = .error .emptyCatalog ∧
    ∀ name ∈ registry.names,
      resolveCheck registry
          (fun d =>
            !d.catalog.isEmpty &&
            decide ((render d.prompt.sections d.prompt.taskCount d.prompt.bands).toOption =
              some d.prompt))
          name = some true :=
  ⟨by simp [render, h], by decide⟩

/-- Witness for C8: the empty catalog fails to render, and the non-empty
catalog of `privacy-zk-attacks` renders back to its brief. -/
theorem empty_catalog_render_witness :
    (([] : List Band).map Band.vectors).flatten = ([] : List AttackVector) ∧
    render [] 0 [] = .error .emptyCatalog ∧
    "privacy-zk-attacks" ∈ registry.names ∧
    resolveCheck registry
        (fun d =>
          !d.catalog.isEmpty &&
          decide ((render d.prompt.sections d.prompt.taskCount d.prompt.bands).toOption =
            some d.prompt))
        "privacy-zk-attacks" = some true :=
  ⟨rfl, (empty_catalog_render [] 0 [] rfl).1, by decide,
    (empty_catalog_render [] 0 [] rfl).2 "privacy-zk-attacks" (by decide)⟩

/-- C9 counterexample: after the startup registration sweep the registry holds
exactly 43 commands — short of 60 by more than a quarter, so not approximately
60. -/
theorem registry_size_counterexample :
    registry.names.length = 43 ∧ registry.names.length < 54 := by
  decide

/-- C9 amended: after the startup registration sweep the registry contains
exactly 43 registered detector commands, one per detector module under `src/`,
all distinct. -/
theorem registry_size_exact :
    registry.names.length = 43 ∧
    registrations.length = 43 ∧
    nodupBool registry.names = true := by
  decide

/-- C10: for every registered factory, two successive invocations construct
distinct fresh detector instances, and the briefs produced by the two
instances are identical — determinism holds across instances. -/
theorem factory_instances_fresh_and_equal (name : String)
    (hname : name ∈ registry.names) (f : Factory)
    (hf : registry.resolve name = .ok f) (heap : Nat) :
    ((invokeFactory f heap).1).oid ≠
      ((invokeFactory f ((invokeFactory f heap).2)).1).oid ∧
    produce_brief ((invokeFactory f heap).1).det =
      produce_brief ((invokeFactory f ((invokeFactory f heap).2)).1).det :=
  ⟨Nat.ne_of_lt (Nat.lt_succ_self heap), rfl⟩

/-- Witness for C10 at the `reentrancy` factory and heap counter 0. -/
theorem factory_instances_fresh_and_equal_witness :
    "reentrancy" ∈ registry.names ∧
    registry.resolve "reentrancy" = .ok Reentrancy.factory ∧
    (((invokeFactory Reentrancy.factory 0).1).oid ≠
        ((invokeFactory Reentrancy.factory
            ((invokeFactory Reentrancy.factory 0).2)).1).oid ∧
      produce_brief ((invokeFactory Reentrancy.factory 0).1).det =
        produce_brief ((invokeFactory Reentrancy.factory
            ((invokeFactory Reentrancy.factory 0).2)).1).det) :=
  ⟨by decide, rfl,
    factory_instances_fresh_and_equal "reentrancy" (by decide) Reentrancy.factory rfl 0⟩

end WakeAI
